import Mathlib

/-!
# Verification of the finesse-practice repository

Shallow embedding of the finesse comparison / lookup logic
(`lib/finesse` module, file `src/unnamed/part_000`) and the SM-2
spaced-repetition scheduler (`src/finesse-therapy/lib/sm2.ts`,
`src/finesse-therapy/hooks/use-key-bindings.ts`), followed by theorems
settling the frozen claims about this code.

Conventions of the embedding:
* JavaScript numbers that only ever hold integers are modelled as `ℤ`
  (or `ℕ` where the source keeps them non-negative); the SM-2 easiness
  factor and accuracies are modelled as exact rationals `ℚ`.
* JavaScript array indexing `a[i]` (which yields `undefined` out of
  range, including for negative `i`) is modelled by `listGetInt`.
* `Math.floor(Math.random() * n)`, a uniformly drawn index `< n`, is
  modelled by an explicit draw parameter `r : ℕ` used as `r % n`.
* `Array.prototype.sort` (a stable sort; the comparators used by the
  source are total preorders, under which every stable sort agrees) is
  modelled by `List.insertionSort`.
* JS `x % 2` (truncated remainder, sign of the dividend) is `Int.tmod`.
-/

/-- The eight finesse move tokens, from `FinesseMove` in the source:
`'L' | 'R' | 'DL' | 'DR' | 'C' | 'CC' | 'DROP' | 'SD'`. -/
inductive FinesseMove : Type
  | L | R | DL | DR | C | CC | DROP | SD
  deriving DecidableEq

open FinesseMove in
/-- `FINESSE_TARGETS`: for each piece index (Z=0, S=1, I=2, T=3, O=4,
L=5, J=6), a list of orientation layers, each layer a list of
`(column, rotation)` pairs, exactly as in the source table. -/
def FINESSE_TARGETS : List (List (List (ℕ × ℕ))) :=
  [ -- Z-mino
    [ [(0, 0), (1, 0), (2, 0), (3, 0), (4, 0), (5, 0), (6, 0), (7, 0)],
      [(0, 3), (1, 3), (2, 3), (3, 3), (4, 3), (5, 3), (6, 3), (7, 3), (8, 3)] ],
    -- S-mino
    [ [(0, 0), (1, 0), (2, 0), (3, 0), (4, 0), (5, 0), (6, 0), (7, 0)],
      [(0, 3), (1, 3), (2, 3), (3, 3), (4, 3), (5, 3), (6, 3), (7, 3), (8, 3)] ],
    -- I-mino
    [ [(0, 0), (1, 0), (2, 0), (3, 0), (4, 0), (5, 0), (6, 0)],
      [(0, 3), (1, 3), (2, 3), (3, 3), (4, 3), (5, 3), (6, 3), (7, 3), (8, 3), (9, 3)] ],
    -- T-mino
    [ [(0, 0), (1, 0), (2, 0), (3, 0), (4, 0), (5, 0), (6, 0), (7, 0)],
      [(0, 1), (1, 1), (2, 1), (3, 1), (4, 1), (5, 1), (6, 1), (7, 1), (8, 1)],
      [(0, 2), (1, 2), (2, 2), (3, 2), (4, 2), (5, 2), (6, 2), (7, 2)],
      [(0, 3), (1, 3), (2, 3), (3, 3), (4, 3), (5, 3), (6, 3), (7, 3), (8, 3)] ],
    -- O-mino
    [ [(0, 0), (1, 0), (2, 0), (3, 0), (4, 0), (5, 0), (6, 0), (7, 0), (8, 0)] ],
    -- L-mino
    [ [(0, 0), (1, 0), (2, 0), (3, 0), (4, 0), (5, 0), (6, 0), (7, 0)],
      [(0, 1), (1, 1), (2, 1), (3, 1), (4, 1), (5, 1), (6, 1), (7, 1), (8, 1)],
      [(0, 2), (1, 2), (2, 2), (3, 2), (4, 2), (5, 2), (6, 2), (7, 2)],
      [(0, 3), (1, 3), (2, 3), (3, 3), (4, 3), (5, 3), (6, 3), (7, 3), (8, 3)] ],
    -- J-mino
    [ [(0, 0), (1, 0), (2, 0), (3, 0), (4, 0), (5, 0), (6, 0), (7, 0)],
      [(0, 1), (1, 1), (2, 1), (3, 1), (4, 1), (5, 1), (6, 1), (7, 1), (8, 1)],
      [(0, 2), (1, 2), (2, 2), (3, 2), (4, 2), (5, 2), (6, 2), (7, 2)],
      [(0, 3), (1, 3), (2, 3), (3, 3), (4, 3), (5, 3), (6, 3), (7, 3), (8, 3)] ] ]

open FinesseMove in
/-- `FINESSE_MOVES`: for each piece index, a list of orientation
layers, each layer a list of columns, each column a `MoveSequenceSet`
(a list of alternative optimal move sequences), exactly the source
table. -/
def FINESSE_MOVES : List (List (List (List (List FinesseMove)))) :=
  [ -- Z-mino
    [ [ [[DL, DROP]],
        [[L, L, DROP], [DL, R, DROP]],
        [[L, DROP]],
        [[DROP]],
        [[R, DROP]],
        [[R, R, DROP]],
        [[DR, L, DROP]],
        [[DR, DROP]] ],
      [ [[CC, DL, DROP]],
        [[DL, C, DROP]],
        [[CC, L, DROP]],
        [[CC, DROP]],
        [[C, DROP]],
        [[C, R, DROP]],
        [[C, R, R, DROP], [DR, L, CC, DROP]],
        [[DR, CC, DROP]],
        [[C, DR, DROP]] ] ],
    -- S-mino
    [ [ [[DL, DROP]],
        [[L, L, DROP], [DL, R, DROP]],
        [[L, DROP]],
        [[DROP]],
        [[R, DROP]],
        [[R, R, DROP]],
        [[DR, L, DROP]],
        [[DR, DROP]] ],
      [ [[CC, DL, DROP]],
        [[DL, C, DROP]],
        [[CC, L, DROP]],
        [[CC, DROP]],
        [[C, DROP]],
        [[C, R, DROP]],
        [[C, R, R, DROP], [DR, L, CC, DROP]],
        [[DR, CC, DROP]],
        [[C, DR, DROP]] ] ],
    -- I-mino
    [ [ [[DL, DROP]],
        [[L, L, DROP], [DL, R, DROP]],
        [[L, DROP]],
        [[DROP]],
        [[R, DROP]],
        [[R, R, DROP], [DR, L, DROP]],
        [[DR, DROP]] ],
      [ [[CC, DL, DROP]],
        [[DL, CC, DROP]],
        [[DL, C, DROP]],
        [[L, CC, DROP]],
        [[CC, DROP]],
        [[C, DROP]],
        [[R, C, DROP]],
        [[DR, CC, DROP]],
        [[DR, C, DROP]],
        [[C, DR, DROP]] ] ],
    -- T-mino
    [ [ [[DL, DROP]],
        [[L, L, DROP], [DL, R, DROP]],
        [[L, DROP]],
        [[DROP]],
        [[R, DROP]],
        [[R, R, DROP]],
        [[DR, L, DROP]],
        [[DR, DROP]] ],
      [ [[C, DL, DROP]],
        [[DL, C, DROP]],
        [[C, L, L, DROP], [DL, R, C, DROP]],
        [[C, L, DROP]],
        [[C, DROP]],
        [[C, R, DROP]],
        [[C, R, R, DROP]],
        [[C, DR, L, DROP]],
        [[DR, C, DROP]] ],
      [ [[DL, C, C, DROP], [DL, CC, CC, DROP]],
        [[L, L, C, C, DROP], [DL, R, C, C, DROP]],
        [[L, C, C, DROP], [L, CC, CC, DROP]],
        [[C, C, DROP], [CC, CC, DROP]],
        [[R, C, C, DROP], [R, CC, CC, DROP]],
        [[R, R, C, C, DROP], [R, R, CC, CC, DROP]],
        [[DR, L, C, C, DROP], [DR, L, CC, CC, DROP]],
        [[DR, C, C, DROP], [DR, CC, CC, DROP]] ],
      [ [[CC, DL, DROP]],
        [[CC, L, L, DROP], [DL, R, CC, DROP]],
        [[CC, L, DROP]],
        [[CC, DROP]],
        [[CC, R, DROP]],
        [[CC, R, R, DROP]],
        [[DR, L, CC, DROP]],
        [[DR, CC, DROP]],
        [[CC, DR, DROP]] ] ],
    -- O-mino
    [ [ [[DL, DROP]],
        [[DL, R, DROP]],
        [[L, L, DROP]],
        [[L, DROP]],
        [[DROP]],
        [[R, DROP]],
        [[R, R, DROP]],
        [[DR, L, DROP]],
        [[DR, DROP]] ] ],
    -- L-mino
    [ [ [[DL, DROP]],
        [[L, L, DROP], [DL, R, DROP]],
        [[L, DROP]],
        [[DROP]],
        [[R, DROP]],
        [[R, R, DROP]],
        [[DR, L, DROP]],
        [[DR, DROP]] ],
      [ [[C, DL, DROP]],
        [[DL, C, DROP]],
        [[C, L, L, DROP], [DL, R, C, DROP]],
        [[C, L, DROP]],
        [[C, DROP]],
        [[C, R, DROP]],
        [[C, R, R, DROP]],
        [[C, DR, L, DROP]],
        [[DR, C, DROP]] ],
      [ [[DL, C, C, DROP], [DL, CC, CC, DROP]],
        [[L, L, C, C, DROP], [DL, R, C, C, DROP]],
        [[L, C, C, DROP], [L, CC, CC, DROP]],
        [[C, C, DROP], [CC, CC, DROP]],
        [[R, C, C, DROP], [R, CC, CC, DROP]],
        [[R, R, C, C, DROP], [R, R, CC, CC, DROP]],
        [[DR, L, C, C, DROP], [DR, L, CC, CC, DROP]],
        [[DR, C, C, DROP], [DR, CC, CC, DROP]] ],
      [ [[CC, DL, DROP]],
        [[CC, L, L, DROP], [DL, R, CC, DROP]],
        [[CC, L, DROP]],
        [[CC, DROP]],
        [[CC, R, DROP]],
        [[CC, R, R, DROP]],
        [[DR, L, CC, DROP]],
        [[DR, CC, DROP]],
        [[CC, DR, DROP]] ] ],
    -- J-mino
    [ [ [[DL, DROP]],
        [[L, L, DROP], [DL, R, DROP]],
        [[L, DROP]],
        [[DROP]],
        [[R, DROP]],
        [[R, R, DROP]],
        [[DR, L, DROP]],
        [[DR, DROP]] ],
      [ [[C, DL, DROP]],
        [[DL, C, DROP]],
        [[C, L, L, DROP], [DL, R, C, DROP]],
        [[C, L, DROP]],
        [[C, DROP]],
        [[C, R, DROP]],
        [[C, R, R, DROP]],
        [[C, DR, L, DROP]],
        [[DR, C, DROP]] ],
      [ [[DL, C, C, DROP], [DL, CC, CC, DROP]],
        [[L, L, C, C, DROP], [DL, R, C, C, DROP]],
        [[L, C, C, DROP], [L, CC, CC, DROP]],
        [[C, C, DROP], [CC, CC, DROP]],
        [[R, C, C, DROP], [R, CC, CC, DROP]],
        [[R, R, C, C, DROP], [R, R, CC, CC, DROP]],
        [[DR, L, C, C, DROP], [DR, L, CC, CC, DROP]],
        [[DR, C, C, DROP], [DR, CC, CC, DROP]] ],
      [ [[CC, DL, DROP]],
        [[CC, L, L, DROP], [DL, R, CC, DROP]],
        [[CC, L, DROP]],
        [[CC, DROP]],
        [[CC, R, DROP]],
        [[CC, R, R, DROP]],
        [[DR, L, CC, DROP]],
        [[DR, CC, DROP]],
        [[CC, DR, DROP]] ] ] ]

/-- The position of a move's name in the JavaScript lexicographic
string order used by the comparator-less `Array.prototype.sort`:
`'C' < 'CC' < 'DL' < 'DR' < 'DROP' < 'L' < 'R' < 'SD'`. -/
def moveRank : FinesseMove → ℕ
  | .C => 0 | .CC => 1 | .DL => 2 | .DR => 3
  | .DROP => 4 | .L => 5 | .R => 6 | .SD => 7

/-- The order in which `[...moves].sort()` arranges finesse moves. -/
def moveLE (a b : FinesseMove) : Prop := moveRank a ≤ moveRank b

instance : DecidableRel moveLE := fun a b => inferInstanceAs (Decidable (moveRank a ≤ moveRank b))

instance : IsTotal FinesseMove moveLE := ⟨fun a b => Nat.le_total (moveRank a) (moveRank b)⟩

instance : IsTrans FinesseMove moveLE := ⟨fun _ _ _ => Nat.le_trans⟩

instance : IsAntisymm FinesseMove moveLE :=
  ⟨fun a b h h' => by cases a <;> cases b <;> first | rfl | exact absurd (Nat.le_antisymm h h') (by decide)⟩

/-- `[...moves].sort()` from the source: sorting a move list in the JS
string order of the move names. -/
def sortMoves (moves : List FinesseMove) : List FinesseMove :=
  List.insertionSort moveLE moves

/-- `compareMoves(playerMoves, targetMoves)` from the source:
empty/absent target set is incorrect; fewer moves than the first
target sequence is correct (DAS preservation); any soft drop is
correct; otherwise some target sequence must match `playerMoves` up to
sorting at equal length. -/
def compareMoves (playerMoves : List FinesseMove) (targetMoves : List (List FinesseMove)) : Bool :=
  match targetMoves with
  | [] => false
  | first :: _ =>
    if playerMoves.length < first.length then true
    else if playerMoves.contains FinesseMove.SD then true
    else targetMoves.any fun validSequence =>
      playerMoves.length == validSequence.length &&
        sortMoves playerMoves == sortMoves validSequence

/-- JavaScript array indexing `a[i]` on an integer index:
`undefined` (`none`) for a negative or too-large index. -/
def listGetInt (l : List α) (i : ℤ) : Option α :=
  if 0 ≤ i then l.get? i.toNat else none

/-- The rotation-to-layer-index mapping inside `getOptimalMoves`:
a 1-layer piece (O) always uses layer 0, a 2-layer piece (Z, S, I)
uses JS `rotationIndex % 2` (`Int.tmod`), any other piece uses the
rotation index unchanged. -/
def foldRotationIndex (layerCount : ℕ) (rotationIndex : ℤ) : ℤ :=
  if layerCount = 1 then 0
  else if layerCount = 2 then Int.tmod rotationIndex 2
  else rotationIndex

/-- `getOptimalMoves(pieceIndex, columnIndex, rotationIndex)` from the
source: looks up the piece's layer list, folds the rotation index via
`foldRotationIndex`, then indexes layer and column, returning `[]`
whenever a lookup misses. -/
def getOptimalMoves (pieceIndex columnIndex rotationIndex : ℤ) : List (List FinesseMove) :=
  match listGetInt FINESSE_MOVES pieceIndex with
  | none => []
  | some pieceData =>
    match listGetInt pieceData (foldRotationIndex pieceData.length rotationIndex) with
    | none => []
    | some layer =>
      match listGetInt layer columnIndex with
      | none => []
      | some columnData => columnData

/-! ## The SM-2 module (`src/finesse-therapy/lib/sm2.ts`) -/

/-- The seven tetromino piece letters (`TetrominoType`). -/
inductive TetrominoType : Type
  | Z | S | I | T | O | L | J
  deriving DecidableEq

/-- The single-letter name of a piece, as it appears in a pattern id. -/
def TetrominoType.toStr : TetrominoType → String
  | .Z => "Z" | .S => "S" | .I => "I" | .T => "T"
  | .O => "O" | .L => "L" | .J => "J"

/-- Inverse of `TetrominoType.toStr`, modelling the unchecked
`piece as TetrominoType` cast in `parsePatternId` as a fallible
lookup. -/
def TetrominoType.ofStr : String → Option TetrominoType
  | "Z" => some .Z | "S" => some .S | "I" => some .I | "T" => some .T
  | "O" => some .O | "L" => some .L | "J" => some .J
  | _ => none

/-- A single pattern's learning state (`SM2Card`). `easiness` and all
accuracies are exact rationals; timestamps and counters are integers. -/
structure SM2Card : Type where
  patternId : String
  easiness : ℚ
  interval : ℤ
  repetitions : ℕ
  successCount : ℕ
  failCount : ℕ
  lastReviewed : ℤ
  nextReviewAt : ℤ
  deriving DecidableEq

def DEFAULT_EASINESS : ℚ := 2.5

def MIN_EASINESS : ℚ := 1.3

def INITIAL_INTERVAL : ℤ := 1

def MASTERY_THRESHOLD : ℚ := 0.90

def MIN_ATTEMPTS_FOR_MASTERY : ℕ := 5

def MASTERED_REVIEW_MIN : ℕ := 10

def MASTERED_REVIEW_MAX : ℕ := 20

/-- `createPatternId(piece, column, rotation)`: the template string
`piece ++ "_" ++ column ++ "_" ++ rotation`. -/
def createPatternId (piece : TetrominoType) (column rotation : ℕ) : String :=
  piece.toStr ++ "_" ++ toString column ++ "_" ++ toString rotation

/-- The digit-accumulating loop of JS `parseInt(s, 10)`: consume
decimal digits until the first non-digit character. -/
def parseIntAcc : List Char → ℕ → ℕ
  | [], acc => acc
  | c :: cs, acc => if c.isDigit then parseIntAcc cs (acc * 10 + (c.toNat - 48)) else acc

/-- JS `parseInt(s, 10)` on a character list: `NaN` (`none`) when the
string does not start with a decimal digit, otherwise the value of the
leading digit run. -/
def parseIntDigits : List Char → Option ℕ
  | [] => none
  | c :: cs => if c.isDigit then some (parseIntAcc cs (c.toNat - 48)) else none

/-- JS `s.split('_')` on the character list of a string. -/
def splitOnUnderscore : List Char → List (List Char)
  | [] => [[]]
  | c :: cs =>
    match splitOnUnderscore cs with
    | [] => [[]]
    | w :: ws => if c = '_' then [] :: w :: ws else (c :: w) :: ws

/-- `parsePatternId(id)`: split on `'_'` and read back the piece letter
and the two decimal numbers.  The TS source performs an unchecked cast
and `parseInt`; the embedding returns `none` where the cast would be
meaningless or the numeral absent, and agrees with `parseInt` on the
canonical decimal strings that `createPatternId` produces. -/
def parsePatternId (id : String) : Option (TetrominoType × ℕ × ℕ) :=
  match splitOnUnderscore id.data with
  | piece :: col :: rot :: _ =>
    match TetrominoType.ofStr (String.mk piece), parseIntDigits col, parseIntDigits rot with
    | some p, some c, some r => some (p, c, r)
    | _, _, _ => none
  | _ => none

/-- `initCard(patternId, globalRepetitionCount)`; `Date.now()` is the
explicit `now` argument. -/
def initCard (patternId : String) (globalRepetitionCount : ℤ) (now : ℤ) : SM2Card :=
  { patternId := patternId
    easiness := DEFAULT_EASINESS
    interval := INITIAL_INTERVAL
    repetitions := 0
    successCount := 0
    failCount := 0
    lastReviewed := now
    nextReviewAt := globalRepetitionCount + INITIAL_INTERVAL }

/-- `getQuality(correct)`: quality 4 for a correct attempt, 0 for an
incorrect one. -/
def getQuality (correct : Bool) : ℕ :=
  if correct then 4 else 0

/-- `calculateNewEasiness(currentEasiness, quality)`: on failure
(quality < 3) a gentle `0.1` reduction, on success the standard SM-2
formula; floored at `MIN_EASINESS` in both cases. -/
def calculateNewEasiness (currentEasiness : ℚ) (quality : ℕ) : ℚ :=
  if quality < 3 then
    max MIN_EASINESS (currentEasiness - 0.1)
  else
    max MIN_EASINESS
      (currentEasiness + (0.1 - ((5 : ℚ) - quality) * (0.08 + ((5 : ℚ) - quality) * 0.02)))

/-- `calculateNextInterval(card, quality)`: reset on failure; `1`, `6`,
then `Math.round(interval * easiness)` on success. -/
def calculateNextInterval (card : SM2Card) (quality : ℕ) : ℤ :=
  if quality < 3 then INITIAL_INTERVAL
  else if card.repetitions = 0 then 1
  else if card.repetitions = 1 then 6
  else round ((card.interval : ℚ) * card.easiness)

/-- `reviewCard(card, correct, globalRepetitionCount)`: the forgiving
variant implemented by the source — on failure repetitions are halved
(not reset) and the interval becomes `max(2, ⌊interval / 2⌋)`; on
success repetitions increment and the interval follows
`calculateNextInterval`.  `Date.now()` is the explicit `now`. -/
def reviewCard (card : SM2Card) (correct : Bool) (globalRepetitionCount : ℤ) (now : ℤ) : SM2Card :=
  let quality := getQuality correct
  let newEasiness := calculateNewEasiness card.easiness quality
  let newRepetitions : ℕ :=
    if quality < 3 then max 0 (card.repetitions / 2)
    else card.repetitions + 1
  let newInterval : ℤ :=
    if quality < 3 then max 2 (Int.fdiv card.interval 2)
    else calculateNextInterval card quality
  { card with
    easiness := newEasiness
    interval := newInterval
    repetitions := newRepetitions
    successCount := if correct then card.successCount + 1 else card.successCount
    failCount := if correct then card.failCount else card.failCount + 1
    lastReviewed := now
    nextReviewAt := globalRepetitionCount + newInterval }

/-- `getCardAccuracy(card)`: success ratio, `0` for an untouched card. -/
def getCardAccuracy (card : SM2Card) : ℚ :=
  let total := card.successCount + card.failCount
  if total = 0 then 0 else (card.successCount : ℚ) / total

/-- `isCardMastered(card)`: at least `MIN_ATTEMPTS_FOR_MASTERY`
attempts and accuracy at or above `MASTERY_THRESHOLD`. -/
def isCardMastered (card : SM2Card) : Bool :=
  let total := card.successCount + card.failCount
  if total < MIN_ATTEMPTS_FOR_MASTERY then false
  else decide (MASTERY_THRESHOLD ≤ getCardAccuracy card)

/-- A card store `Record<string, SM2Card>` as an association list in
insertion order; `Object.keys` is `cardKeys`, `Object.values` is
`cardValues`. -/
abbrev CardStore : Type := List (String × SM2Card)

def cardKeys (cards : CardStore) : List String := cards.map Prod.fst

def cardValues (cards : CardStore) : List SM2Card := cards.map Prod.snd

/-- `getDueCards(cards, globalRepetitionCount)`. -/
def getDueCards (cards : CardStore) (globalRepetitionCount : ℤ) : List SM2Card :=
  (cardValues cards).filter fun card => card.nextReviewAt ≤ globalRepetitionCount

/-- `getUnmasteredCards(cards)`. -/
def getUnmasteredCards (cards : CardStore) : List SM2Card :=
  (cardValues cards).filter fun card => !isCardMastered card

/-- `getMasteredCards(cards)`. -/
def getMasteredCards (cards : CardStore) : List SM2Card :=
  (cardValues cards).filter fun card => isCardMastered card

/-- The comparator used on due/unmastered cards: total attempts
ascending, then accuracy ascending. -/
def cardLE (a b : SM2Card) : Prop :=
  a.successCount + a.failCount < b.successCount + b.failCount ∨
    (a.successCount + a.failCount = b.successCount + b.failCount ∧
      getCardAccuracy a ≤ getCardAccuracy b)

instance : DecidableRel cardLE := fun _ _ => inferInstanceAs (Decidable (_ ∨ _))

/-- `cards.sort(comparator)`: a stable sort under the total preorder
`cardLE`. -/
def sortCards (cards : List SM2Card) : List SM2Card :=
  List.insertionSort cardLE cards

/-- `array[Math.floor(Math.random() * array.length)]`: a uniformly
drawn element, `none` exactly on the empty list; the draw is the
explicit parameter `r`, reduced mod the length. -/
def pickRandom (r : ℕ) (l : List α) : Option α :=
  l.get? (r % l.length)

/-- `selectNextPattern(cards, allPatternIds, globalRepetitionCount,
lastMasteredReview)`: tier 1 introduces an unreviewed pattern, tier 2
returns the first due card after sorting, tier 3 the first unmastered
card after sorting, tier 4 a random mastered card when the 10–20
cooldown has elapsed, and the fallback a random pattern id.  The
source's four `Math.random()` draws are the explicit parameters
`rNew`, `rInterval`, `rMastered`, `rFallback`. -/
def selectNextPattern (cards : CardStore) (allPatternIds : List String)
    (globalRepetitionCount : ℤ) (lastMasteredReview : ℤ)
    (rNew rInterval rMastered rFallback : ℕ) : Option String :=
  let reviewedPatternIds := cardKeys cards
  let unreviewed := allPatternIds.filter fun id => !reviewedPatternIds.contains id
  match pickRandom rNew unreviewed with
  | some id => some id
  | none =>
    match sortCards (getDueCards cards globalRepetitionCount) with
    | card :: _ => some card.patternId
    | [] =>
      match sortCards (getUnmasteredCards cards) with
      | card :: _ => some card.patternId
      | [] =>
        let mastered := getMasteredCards cards
        let fromMastered : Option SM2Card :=
          if 0 < mastered.length then
            let reviewInterval : ℤ :=
              MASTERED_REVIEW_MIN + (rInterval % (MASTERED_REVIEW_MAX - MASTERED_REVIEW_MIN))
            if reviewInterval ≤ globalRepetitionCount - lastMasteredReview then
              pickRandom rMastered mastered
            else none
          else none
        match fromMastered with
        | some card => some card.patternId
        | none => pickRandom rFallback allPatternIds

/-! ## The key-bindings hook (`src/finesse-therapy/hooks/use-key-bindings.ts`) -/

/-- `PIECE_INDEX_TO_TYPE`: the piece letter for each piece index
0..6, as a list indexed by the record's integer keys. -/
def PIECE_INDEX_TO_TYPE : List TetrominoType :=
  [.Z, .S, .I, .T, .O, .L, .J]

/-- `PIECE_TYPE_TO_INDEX`: the inverse record. -/
def PIECE_TYPE_TO_INDEX : TetrominoType → ℕ
  | .Z => 0 | .S => 1 | .I => 2 | .T => 3
  | .O => 4 | .L => 5 | .J => 6

/-- `getAllPatternIds()`: for every piece index key of
`FINESSE_TARGETS` (in ascending order 0..6), every orientation layer
and every `(column, rotation)` entry, emit
`createPatternId(pieceType, column, rotation)`. -/
def getAllPatternIds : List String :=
  (List.range 7).flatMap fun pieceIndex =>
    match PIECE_INDEX_TO_TYPE.get? pieceIndex, FINESSE_TARGETS.get? pieceIndex with
    | some pieceType, some rotations =>
      rotations.flatMap fun positions =>
        positions.map fun cr => createPatternId pieceType cr.1 cr.2
    | _, _ => []

/-- The resolution step of `selectNextLearningPattern` after
`selectNextPattern` has produced a `patternId`: parse the id, map the
rotation value to the orientation-layer index (`0` for a 1-layer
piece, `rotation % 2` for a 2-layer piece, identity otherwise), scan
the layer's positions for the `(column, rotation)` pair (defaulting to
column index 0 as the source's loop does), and fetch the moves via
`getOptimalMoves`.  The source never checks the parse (an unchecked
cast); the embedding returns `none` where the parse fails. -/
def resolvePattern (patternId : String) :
    Option (TetrominoType × ℕ × ℕ × List (List FinesseMove)) :=
  match parsePatternId patternId with
  | none => none
  | some (piece, column, rotation) =>
    let pieceIndex := PIECE_TYPE_TO_INDEX piece
    let rotations := (FINESSE_TARGETS.get? pieceIndex).getD []
    let arrayIndex : ℕ :=
      if rotations.length = 1 then 0
      else if rotations.length = 2 then rotation % 2
      else rotation
    let positions := (rotations.get? arrayIndex).getD []
    let colIndex : ℕ :=
      match positions.findIdx? (fun cr => cr.1 == column && cr.2 == rotation) with
      | some i => i
      | none => 0
    some (piece, column, rotation,
      getOptimalMoves (Int.ofNat pieceIndex) (Int.ofNat colIndex) (Int.ofNat arrayIndex))

/-- The table cells exactly as `getAllPatternIds` enumerates them:
each element is the piece letter, the `(column, rotation)` pair of a
`FINESSE_TARGETS` entry, and the `MoveSequenceSet` stored at the same
(layer, column-index) address of `FINESSE_MOVES`. -/
def tableCells : List (TetrominoType × (ℕ × ℕ) × List (List FinesseMove)) :=
  (List.range 7).flatMap fun pieceIndex =>
    match PIECE_INDEX_TO_TYPE.get? pieceIndex, FINESSE_TARGETS.get? pieceIndex,
        FINESSE_MOVES.get? pieceIndex with
    | some pieceType, some rotations, some moveLayers =>
      (rotations.zip moveLayers).flatMap fun layer =>
        (layer.1.zip layer.2).map fun cell => (pieceType, cell.1, cell.2)
    | _, _, _ => []

/-- A mastered card (9 successes in 9 attempts) that is not yet due
(`nextReviewAt = 1`). -/
def masteredIdleCard : SM2Card :=
  { patternId := "M", easiness := 2.5, interval := 1, repetitions := 5,
    successCount := 9, failCount := 0, lastReviewed := 0, nextReviewAt := 1 }

/-- A mastered card (9 successes in 9 attempts) that is due at
`globalRepetitionCount = 0`. -/
def masteredDueCard : SM2Card :=
  { patternId := "M", easiness := 2.5, interval := 1, repetitions := 5,
    successCount := 9, failCount := 0, lastReviewed := 0, nextReviewAt := 0 }

/-- A fresh card that is due at `globalRepetitionCount = 0`. -/
def freshDueCard : SM2Card :=
  { patternId := "D", easiness := 2.5, interval := 1, repetitions := 0,
    successCount := 0, failCount := 0, lastReviewed := 0, nextReviewAt := 0 }

/-- The review chain of claim C2: a fresh card reviewed correctly
once, twice, ... five times. -/
def runCard1 : SM2Card := reviewCard (initCard "Z_3_0" 0 0) true 0 0

def runCard2 : SM2Card := reviewCard runCard1 true 0 0

def runCard3 : SM2Card := reviewCard runCard2 true 0 0

def runCard4 : SM2Card := reviewCard runCard3 true 0 0

def runCard5 : SM2Card := reviewCard runCard4 true 0 0

/-! ## Helper lemmas -/

theorem listGetInt_neg {α : Type _} {l : List α} {i : ℤ} (h : i < 0) : listGetInt l i = none := by
  simp [listGetInt, not_le.mpr h]

theorem listGetInt_of_length_le {α : Type _} {l : List α} {i : ℤ}
    (h : (l.length : ℤ) ≤ i) : listGetInt l i = none := by
  unfold listGetInt
  split
  · next h0 =>
    apply List.get?_eq_none.mpr
    omega
  · rfl

theorem listGetInt_eq_some {α : Type _} {l : List α} {i : ℤ} {a : α}
    (h : listGetInt l i = some a) : 0 ≤ i ∧ i.toNat < l.length ∧ l.get? i.toNat = some a := by
  unfold listGetInt at h
  split at h
  · next h0 =>
    refine ⟨h0, ?_, h⟩
    by_contra hlen
    rw [List.get?_eq_none.mpr (le_of_not_lt hlen)] at h
    exact Option.noConfusion h
  · exact absurd h (by simp)

theorem listGetInt_mem {α : Type _} {l : List α} {i : ℤ} {a : α}
    (h : listGetInt l i = some a) : a ∈ l := by
  obtain ⟨-, -, h⟩ := listGetInt_eq_some h
  exact List.get?_mem h

theorem pickRandom_nil {α : Type _} (r : ℕ) : pickRandom r ([] : List α) = none := rfl

theorem pickRandom_ne_none {α : Type _} {l : List α} (h : l ≠ []) (r : ℕ) :
    pickRandom r l ≠ none := by
  unfold pickRandom
  have hlen : 0 < l.length := List.length_pos.mpr h
  have : r % l.length < l.length := Nat.mod_lt _ hlen
  intro hc
  rw [List.get?_eq_none] at hc
  omega

theorem pickRandom_eq_nil {α : Type _} {l : List α} {r : ℕ} (h : pickRandom r l = none) :
    l = [] := by
  by_contra hne
  exact pickRandom_ne_none hne r h

theorem pickRandom_mem {α : Type _} {l : List α} {r : ℕ} {a : α}
    (h : pickRandom r l = some a) : a ∈ l :=
  List.get?_mem h

theorem sortCards_perm (l : List SM2Card) : (sortCards l).Perm l :=
  List.perm_insertionSort _ _

theorem sortCards_eq_nil {l : List SM2Card} (h : sortCards l = []) : l = [] :=
  List.Perm.eq_nil ((sortCards_perm l).symm.trans (h ▸ List.Perm.refl _))

theorem sortCards_mem {l : List SM2Card} {c : SM2Card} (h : c ∈ sortCards l) : c ∈ l :=
  (sortCards_perm l).mem_iff.mp h

theorem sortMoves_perm (l : List FinesseMove) : (sortMoves l).Perm l :=
  List.perm_insertionSort _ _

theorem sortMoves_eq_iff {l l' : List FinesseMove} :
    sortMoves l = sortMoves l' ↔ l.Perm l' := by
  constructor
  · intro h
    exact (sortMoves_perm l).symm.trans (h ▸ sortMoves_perm l')
  · intro h
    exact List.eq_of_perm_of_sorted
      ((sortMoves_perm l).trans (h.trans (sortMoves_perm l').symm))
      (List.sorted_insertionSort _ _) (List.sorted_insertionSort _ _)

theorem lookup_mem {cards : CardStore} {k : String} {c : SM2Card}
    (h : List.lookup k cards = some c) : (k, c) ∈ cards := by
  induction cards with
  | nil => exact absurd h (by simp [List.lookup])
  | cons p rest ih =>
    obtain ⟨k', v⟩ := p
    rw [List.lookup] at h
    by_cases hk : k = k'
    · simp [hk] at h
      simp [hk, h]
    · have : (k == k') = false := beq_eq_false_iff_ne.mpr hk
      rw [this] at h
      exact List.mem_cons_of_mem _ (ih h)

theorem lookup_of_mem_of_nodup {cards : CardStore} {k : String} {c : SM2Card}
    (hnd : (cardKeys cards).Nodup) (hmem : (k, c) ∈ cards) : List.lookup k cards = some c := by
  induction cards with
  | nil => exact absurd hmem (by simp)
  | cons p rest ih =>
    obtain ⟨k', v⟩ := p
    have hnd' : k' ∉ cardKeys rest ∧ (cardKeys rest).Nodup := by
      rw [show cardKeys ((k', v) :: rest) = k' :: cardKeys rest from rfl,
        List.nodup_cons] at hnd
      exact hnd
    rcases List.mem_cons.mp hmem with heq | htail
    · have h1 : k = k' := congrArg Prod.fst heq
      have h2 : c = v := congrArg Prod.snd heq
      subst h1
      subst h2
      simp [List.lookup]
    · by_cases hk : k = k'
      · exfalso
        have : k ∈ cardKeys rest := List.mem_map.mpr ⟨(k, c), htail, rfl⟩
        exact hnd'.1 (hk ▸ this)
      · rw [List.lookup, beq_eq_false_iff_ne.mpr hk]
        exact ih hnd'.2 htail

/-! ## Claim theorems -/

/-- C1 (counterexample): on the card with `repetitions = 3`,
`easiness = 2.5`, `interval = 1`, a failed review does NOT reset
repetitions to 0, does NOT reset the interval to 1, and does NOT
decrement easiness by 0.8: the code halves repetitions (to 1), sets
the interval to `max(2, ⌊1/2⌋) = 2`, and subtracts only 0.1. -/
theorem C1_counterexample :
    ¬ (let c := reviewCard
        { patternId := "T_3_0", easiness := 2.5, interval := 1, repetitions := 3,
          successCount := 0, failCount := 0, lastReviewed := 0, nextReviewAt := 0 } false 0 0
       c.repetitions = 0 ∧ c.interval = 1 ∧ c.easiness = max 1.3 (2.5 - 0.8)) := by
  intro h
  exact absurd h.1 (by norm_num [reviewCard, getQuality])

/-- C1 (amended): for every card and every `globalRepetitionCount`,
`reviewCard(c, false, g)` halves the repetitions
(`max(0, ⌊repetitions/2⌋)`), sets the interval to
`max(2, ⌊interval/2⌋)`, sets the easiness to
`max(1.3, easiness − 0.1)` (the source's deliberately gentler
failure penalty), increments `failCount` by 1 and leaves
`successCount` unchanged. -/
theorem C1_fail_update (card : SM2Card) (g now : ℤ) :
    (reviewCard card false g now).repetitions = max 0 (card.repetitions / 2) ∧
    (reviewCard card false g now).interval = max 2 (Int.fdiv card.interval 2) ∧
    (reviewCard card false g now).easiness = max MIN_EASINESS (card.easiness - 0.1) ∧
    (reviewCard card false g now).failCount = card.failCount + 1 ∧
    (reviewCard card false g now).successCount = card.successCount := by
  refine ⟨?_, ?_, ?_, ?_, ?_⟩ <;>
    simp [reviewCard, getQuality, calculateNewEasiness]

/-- C2 (counterexample): on the very first successful review of a
fresh card the easiness does not strictly increase — quality 4 makes
the canonical SM-2 delta `0.1 − 1·(0.08 + 1·0.02)` exactly zero, so
the easiness stays at 2.5. -/
theorem C2_counterexample :
    ¬ ((initCard "Z_3_0" 0 0).easiness <
        (reviewCard (initCard "Z_3_0" 0 0) true 0 0).easiness) := by
  norm_num [initCard, reviewCard, getQuality, calculateNewEasiness, DEFAULT_EASINESS,
    MIN_EASINESS]

/-- C2 (amended): starting from a fresh card
(`easiness = 2.5`, `interval = 1`, `repetitions = 0`), five
consecutive correct reviews give repetitions 1 and interval 1 after
call 1, repetitions 2 and interval 6 after call 2, repetitions 3 and
interval `round(6 × easiness) = 15` after call 3 — and the easiness
stays exactly 2.5 (unchanged, not strictly increasing) on every one
of the five calls. -/
theorem C2_success_run :
    runCard1.repetitions = 1 ∧ runCard1.interval = 1 ∧
    runCard2.repetitions = 2 ∧ runCard2.interval = 6 ∧
    runCard3.repetitions = 3 ∧ runCard3.interval = round ((6 : ℚ) * runCard2.easiness) ∧
    runCard3.interval = 15 ∧
    runCard1.easiness = DEFAULT_EASINESS ∧ runCard2.easiness = DEFAULT_EASINESS ∧
    runCard3.easiness = DEFAULT_EASINESS ∧ runCard4.easiness = DEFAULT_EASINESS ∧
    runCard5.easiness = DEFAULT_EASINESS := by
  norm_num [runCard1, runCard2, runCard3, runCard4, runCard5, initCard, reviewCard,
    getQuality, calculateNewEasiness, calculateNextInterval, DEFAULT_EASINESS, MIN_EASINESS,
    INITIAL_INTERVAL, round_eq]

/-- C4 (counterexample): a played sequence containing a soft drop is
NOT accepted against the empty target set — `compareMoves` returns
`false` whenever `targetMoves` is empty, before the soft-drop rule is
consulted. -/
theorem C4_counterexample :
    FinesseMove.SD ∈ [FinesseMove.SD] ∧
      compareMoves [FinesseMove.SD] [] = false := by
  decide

/-- C4 (amended): for every played sequence containing a soft-drop
move and every NON-EMPTY target set, `compareMoves` returns `true`,
regardless of the other content of either argument. -/
theorem C4_soft_drop (played : List FinesseMove) (t : List FinesseMove)
    (ts : List (List FinesseMove)) (h : FinesseMove.SD ∈ played) :
    compareMoves played (t :: ts) = true := by
  simp only [compareMoves]
  by_cases hl : played.length < t.length
  · rw [if_pos hl]
  · rw [if_neg hl, if_pos (List.elem_iff.mpr h)]

/-- C4 (witness): a concrete instance of the soft-drop rule. -/
theorem C4_soft_drop_witness :
    compareMoves [FinesseMove.L, FinesseMove.R, FinesseMove.SD]
      [[FinesseMove.DROP]] = true :=
  C4_soft_drop _ _ _ (by decide)

/-- C5: for a non-empty target set and a played sequence without soft
drops that is at least as long as the first target sequence,
`compareMoves` returns `true` exactly when some target sequence has
the same length as the played sequence and the same multiset of moves
(order-insensitive). -/
theorem C5_multiset_match (played : List FinesseMove) (t : List FinesseMove)
    (ts : List (List FinesseMove)) (hSD : FinesseMove.SD ∉ played)
    (hlen : t.length ≤ played.length) :
    compareMoves played (t :: ts) = true ↔
      ∃ v ∈ t :: ts, v.length = played.length ∧ played.Perm v := by
  simp only [compareMoves]
  rw [if_neg (by omega), if_neg (fun hc => hSD (List.elem_iff.mp hc))]
  rw [List.any_eq_true]
  constructor
  · rintro ⟨v, hv, hmatch⟩
    rw [Bool.and_eq_true, beq_iff_eq, beq_iff_eq] at hmatch
    exact ⟨v, hv, hmatch.1.symm, sortMoves_eq_iff.mp hmatch.2⟩
  · rintro ⟨v, hv, hvlen, hvperm⟩
    refine ⟨v, hv, ?_⟩
    rw [Bool.and_eq_true, beq_iff_eq, beq_iff_eq]
    exact ⟨hvlen.symm, sortMoves_eq_iff.mpr hvperm⟩

/-- C5 (witness): `[R, DROP]` matches the target `[DROP, R]` as a
multiset at equal length. -/
theorem C5_multiset_match_witness :
    compareMoves [FinesseMove.R, FinesseMove.DROP]
      [[FinesseMove.DROP, FinesseMove.R]] = true :=
  (C5_multiset_match _ _ _ (by decide) (by decide)).mpr
    ⟨[FinesseMove.DROP, FinesseMove.R], by decide, by decide, by decide⟩

/-- C6: for a non-empty target set, every played sequence strictly
shorter than the first target sequence is accepted. -/
theorem C6_shorter_accepted (played : List FinesseMove) (t : List FinesseMove)
    (ts : List (List FinesseMove)) (h : played.length < t.length) :
    compareMoves played (t :: ts) = true := by
  simp only [compareMoves]
  rw [if_pos h]

/-- C6 (witness): the empty played sequence is accepted against a
non-empty first target sequence. -/
theorem C6_shorter_accepted_witness :
    compareMoves [] [[FinesseMove.DROP]] = true :=
  C6_shorter_accepted _ _ _ (by decide)

set_option maxRecDepth 40000

/-- Every `MoveSequenceSet` stored in the `FINESSE_MOVES` table is
non-empty. -/
theorem FINESSE_MOVES_cells_nonempty :
    ∀ pieceData ∈ FINESSE_MOVES, ∀ layer ∈ pieceData, ∀ cell ∈ layer, cell ≠ [] := by
  decide

/-- C8: the pattern-id round trip is exact —
`parsePatternId(createPatternId(p, col, rot)) = (p, col, rot)` for every
piece letter, column < 10 and rotation < 4; the ids enumerated by
`getAllPatternIds` are exactly the ids of the `tableCells`
enumeration of the Finesse Table; and for every enumerated cell the
`selectNextLearningPattern` resolution (`resolvePattern`) recovers
exactly the non-empty `MoveSequenceSet` stored at the cell that
generated the id. -/
theorem C8_roundtrip :
    (∀ p ∈ PIECE_INDEX_TO_TYPE, ∀ col < 10, ∀ rot < 4,
        parsePatternId (createPatternId p col rot) = some (p, col, rot)) ∧
    getAllPatternIds =
      tableCells.map (fun cell => createPatternId cell.1 cell.2.1.1 cell.2.1.2) ∧
    (∀ cell ∈ tableCells,
        resolvePattern (createPatternId cell.1 cell.2.1.1 cell.2.1.2) =
          some (cell.1, cell.2.1.1, cell.2.1.2, cell.2.2) ∧ cell.2.2 ≠ []) := by
  refine ⟨by decide, by decide, by decide⟩

/-- C8 (witness): the round trip at `(T, 3, 2)` and the resolution of
the first Z cell. -/
theorem C8_roundtrip_witness :
    parsePatternId (createPatternId TetrominoType.T 3 2) = some (TetrominoType.T, 3, 2) ∧
    (resolvePattern (createPatternId TetrominoType.Z 0 0) =
        some (TetrominoType.Z, 0, 0, [[FinesseMove.DL, FinesseMove.DROP]]) ∧
      ([[FinesseMove.DL, FinesseMove.DROP]] : List (List FinesseMove)) ≠ []) :=
  ⟨C8_roundtrip.1 TetrominoType.T (by decide) 3 (by decide) 2 (by decide),
   C8_roundtrip.2.2 (TetrominoType.Z, (0, 0), [[FinesseMove.DL, FinesseMove.DROP]]) (by decide)⟩

/-- C9 (counterexample): the negative rotation index `-2` is
out of range, yet `getOptimalMoves(Z, 0, -2)` is NOT empty — JS `%`
folds `-2` to layer 0 and the stored set for Z at column 0 is
returned. -/
theorem C9_counterexample :
    getOptimalMoves 0 0 (-2) = [[FinesseMove.DL, FinesseMove.DROP]] ∧
      ([[FinesseMove.DL, FinesseMove.DROP]] : List (List FinesseMove)) ≠ [] := by
  decide

/-- C9 (amended): `getOptimalMoves` is total and never throws.  An
out-of-range column index always yields `[]` — a negative one
unconditionally, a too-large one (at or beyond the resolved layer's
column count) whenever the folded rotation resolves to a layer (and
when it does not, the result is `[]` by the other conjuncts); an
out-of-range piece index always yields `[]`; for a piece with more
than two layers an out-of-range rotation index (negative or too
large) yields `[]`; and whenever the folded rotation index
(`foldRotationIndex`) and the column index both land in the table,
the stored — always non-empty — `MoveSequenceSet` is returned (so
rotation values outside 0..3 that fold onto an existing layer, such
as `-2` for a two-layer piece, return that layer's stored set rather
than `[]`). -/
theorem C9_lookup_contract (p c r : ℤ) :
    (c < 0 → getOptimalMoves p c r = []) ∧
    (p < 0 ∨ 7 ≤ p → getOptimalMoves p c r = []) ∧
    (∀ pieceData, listGetInt FINESSE_MOVES p = some pieceData → 2 < pieceData.length →
      r < 0 ∨ (pieceData.length : ℤ) ≤ r → getOptimalMoves p c r = []) ∧
    (∀ pieceData, listGetInt FINESSE_MOVES p = some pieceData →
      listGetInt pieceData (foldRotationIndex pieceData.length r) = none →
      getOptimalMoves p c r = []) ∧
    (∀ pieceData layer, listGetInt FINESSE_MOVES p = some pieceData →
      listGetInt pieceData (foldRotationIndex pieceData.length r) = some layer →
      (layer.length : ℤ) ≤ c → getOptimalMoves p c r = []) ∧
    (∀ pieceData layer columnData, listGetInt FINESSE_MOVES p = some pieceData →
      listGetInt pieceData (foldRotationIndex pieceData.length r) = some layer →
      listGetInt layer c = some columnData →
      getOptimalMoves p c r = columnData ∧ columnData ≠ []) := by
  refine ⟨?_, ?_, ?_, ?_, ?_, ?_⟩
  · intro hc
    unfold getOptimalMoves
    split
    · rfl
    · split
      · rfl
      · rw [listGetInt_neg hc]
  · intro hp
    unfold getOptimalMoves
    have h7 : FINESSE_MOVES.length = 7 := rfl
    rcases hp with hp | hp
    · rw [listGetInt_neg hp]
    · rw [listGetInt_of_length_le (by rw [h7]; exact hp)]
  · intro pieceData hpd hlen hr
    have hfold : foldRotationIndex pieceData.length r = r := by
      unfold foldRotationIndex
      rw [if_neg (by omega), if_neg (by omega)]
    have hmiss : listGetInt pieceData (foldRotationIndex pieceData.length r) =
        (none : Option (List (List (List FinesseMove)))) := by
      rw [hfold]
      rcases hr with hr | hr
      · exact listGetInt_neg hr
      · exact listGetInt_of_length_le hr
    unfold getOptimalMoves
    simp only [hpd, hmiss]
  · intro pieceData hpd hmiss
    unfold getOptimalMoves
    simp only [hpd, hmiss]
  · intro pieceData layer hpd hlayer hcol
    unfold getOptimalMoves
    simp only [hpd, hlayer, listGetInt_of_length_le hcol]
  · intro pieceData layer columnData hpd hlayer hcol
    have hval : getOptimalMoves p c r = columnData := by
      unfold getOptimalMoves
      simp only [hpd, hlayer, hcol]
    exact ⟨hval, FINESSE_MOVES_cells_nonempty pieceData (listGetInt_mem hpd) layer
      (listGetInt_mem hlayer) columnData (listGetInt_mem hcol)⟩

/-- C9 (witness): concrete instances of each branch of the lookup
contract. -/
theorem C9_lookup_contract_witness :
    getOptimalMoves 3 (-1) 0 = [] ∧ getOptimalMoves 7 0 0 = [] ∧
    getOptimalMoves 3 0 5 = [] ∧ getOptimalMoves 3 0 (-1) = [] ∧
    getOptimalMoves 0 0 (-1) = [] ∧ getOptimalMoves 0 100 0 = [] ∧
    (getOptimalMoves 3 3 0 = [[FinesseMove.DROP]] ∧
      ([[FinesseMove.DROP]] : List (List FinesseMove)) ≠ []) :=
  ⟨(C9_lookup_contract 3 (-1) 0).1 (by decide),
   (C9_lookup_contract 7 0 0).2.1 (Or.inr (by decide)),
   (C9_lookup_contract 3 0 5).2.2.1 _ rfl (by decide) (Or.inr (by decide)),
   (C9_lookup_contract 3 0 (-1)).2.2.1 _ rfl (by decide) (Or.inl (by decide)),
   (C9_lookup_contract 0 0 (-1)).2.2.2.1 _ rfl rfl,
   (C9_lookup_contract 0 100 0).2.2.2.2.1 _ _ rfl rfl (by decide),
   (C9_lookup_contract 3 3 0).2.2.2.2.2 _ _ [[FinesseMove.DROP]] rfl rfl rfl⟩

/-- C10: the pattern-id universe enumerated from the Finesse Table by
`getAllPatternIds` contains no duplicates — each enumerated PatternId
names exactly one table cell. -/
theorem C10_nodup : getAllPatternIds.Nodup := by
  decide

/-- C3 (counterexample): with a single mastered, not-yet-due card, an
empty unreviewed set, and a cooldown that does NOT hold
(`g − m = 0 < 10 ≤` every drawable threshold), `selectNextPattern`
still returns the mastered pattern — through the final fallback, not
tier 4. -/
theorem C3_counterexample :
    selectNextPattern [("M", masteredIdleCard)] ["M"] 0 0 0 0 0 0 = some "M" ∧
    List.lookup "M" [("M", masteredIdleCard)] = some masteredIdleCard ∧
    isCardMastered masteredIdleCard = true ∧
    ¬ ((MASTERED_REVIEW_MIN : ℤ) + ((0 : ℕ) % (MASTERED_REVIEW_MAX - MASTERED_REVIEW_MIN)) ≤
        0 - 0) := by
  refine ⟨?_, by simp [List.lookup], ?_,
    by norm_num [MASTERED_REVIEW_MIN, MASTERED_REVIEW_MAX]⟩
  · norm_num [selectNextPattern, cardKeys, cardValues, getDueCards, getUnmasteredCards,
      getMasteredCards, sortCards, pickRandom, List.insertionSort, isCardMastered,
      getCardAccuracy, MASTERY_THRESHOLD, MIN_ATTEMPTS_FOR_MASTERY, MASTERED_REVIEW_MIN,
      MASTERED_REVIEW_MAX, masteredIdleCard]
  · norm_num [isCardMastered, getCardAccuracy, MASTERY_THRESHOLD, MIN_ATTEMPTS_FOR_MASTERY,
      masteredIdleCard]

/-- C3 (amended): for a well-formed card store (each value's
`patternId` equals its key, keys distinct), whenever
`selectNextPattern` returns a pattern id whose card is mastered, then
either that card was due (tier 2), or the mastered-review cooldown
`g − m ≥ 10 + (draw % 10)` held (tier 4 — reachable only when tiers
1–3 are empty), or the id came from the final uniform fallback over
`allPatternIds`, which runs with tiers 2 and 3 empty and ignores the
cooldown. -/
theorem C3_mastered_only_when (cards : CardStore) (allPatternIds : List String) (g m : ℤ)
    (rNew rInterval rMastered rFallback : ℕ) (id : String) (c : SM2Card)
    (hwf : ∀ p ∈ cards, (p.2).patternId = p.1)
    (hnd : (cardKeys cards).Nodup)
    (hres : selectNextPattern cards allPatternIds g m rNew rInterval rMastered rFallback =
      some id)
    (hlook : List.lookup id cards = some c)
    (hmast : isCardMastered c = true) :
    c.nextReviewAt ≤ g ∨
      (MASTERED_REVIEW_MIN : ℤ) + (rInterval % (MASTERED_REVIEW_MAX - MASTERED_REVIEW_MIN)) ≤
        g - m ∨
      (getDueCards cards g = [] ∧ getUnmasteredCards cards = [] ∧ id ∈ allPatternIds) := by
  have hidmem : id ∈ cardKeys cards :=
    List.mem_map.mpr ⟨(id, c), lookup_mem hlook, rfl⟩
  have hcard_eq : ∀ card, card ∈ cardValues cards → card.patternId = id → card = c := by
    intro card hmem hpid
    obtain ⟨p, hp, hp2⟩ := List.mem_map.mp hmem
    have hkey : p.1 = id := by rw [← hwf p hp, hp2, hpid]
    have : List.lookup id cards = some card := by
      have : (id, card) ∈ cards := by
        have := hp
        rwa [show p = (id, card) from Prod.ext hkey hp2] at this
      exact lookup_of_mem_of_nodup hnd this
    rw [hlook] at this
    exact (Option.some.injEq .. ▸ this).symm ▸ rfl
  simp only [selectNextPattern] at hres
  split at hres
  · -- tier 1: an unreviewed pattern — impossible, id has a card
    next id' heq =>
    have hmem := pickRandom_mem heq
    have hcontains := List.of_mem_filter hmem
    rw [Option.some.injEq] at hres
    subst hres
    rw [Bool.not_eq_true'] at hcontains
    exact absurd hidmem (by simpa using hcontains)
  · split at hres
    · -- tier 2: a due card
      next card rest heq =>
      rw [Option.some.injEq] at hres
      have hmem : card ∈ getDueCards cards g :=
        sortCards_mem (heq ▸ List.mem_cons_self card rest)
      have hfilter := List.of_mem_filter hmem
      have hval : card ∈ cardValues cards := List.mem_of_mem_filter hmem
      have hceq : card = c := hcard_eq card hval hres
      left
      rw [← hceq]
      exact of_decide_eq_true hfilter
    · next heqDue =>
      split at hres
      · -- tier 3: an unmastered card — impossible, c is mastered
        next card rest heq =>
        rw [Option.some.injEq] at hres
        have hmem : card ∈ getUnmasteredCards cards :=
          sortCards_mem (heq ▸ List.mem_cons_self card rest)
        have hfilter := List.of_mem_filter hmem
        have hval : card ∈ cardValues cards := List.mem_of_mem_filter hmem
        have hceq : card = c := hcard_eq card hval hres
        rw [hceq, hmast] at hfilter
        exact absurd hfilter (by simp)
      · next heqUnm =>
        split at hres
        · -- tier 4: mastered review after cooldown
          next card heq =>
          split at heq
          · split at heq
            · next hcool =>
              right
              left
              exact_mod_cast hcool
            · exact absurd heq (by simp)
          · exact absurd heq (by simp)
        · -- fallback: tiers 2 and 3 were empty
          right
          right
          exact ⟨sortCards_eq_nil heqDue, sortCards_eq_nil heqUnm, pickRandom_mem hres⟩

/-- C3 (witness): a mastered due card is returned by tier 2; the
disjunction holds via its left branch. -/
theorem C3_mastered_only_when_witness :
    masteredDueCard.nextReviewAt ≤ 0 ∨
      (MASTERED_REVIEW_MIN : ℤ) + ((0 : ℕ) % (MASTERED_REVIEW_MAX - MASTERED_REVIEW_MIN)) ≤
        0 - 0 ∨
      (getDueCards [("M", masteredDueCard)] 0 = [] ∧
        getUnmasteredCards [("M", masteredDueCard)] = [] ∧ "M" ∈ ["M"]) :=
  C3_mastered_only_when [("M", masteredDueCard)] ["M"] 0 0 0 0 0 0 "M" masteredDueCard
    (by intro p hp; simp at hp; subst hp; rfl)
    (by simp [cardKeys])
    (by norm_num [selectNextPattern, cardKeys, cardValues, getDueCards, getUnmasteredCards,
      getMasteredCards, sortCards, pickRandom, List.insertionSort, masteredDueCard])
    (by simp [List.lookup])
    (by norm_num [isCardMastered, getCardAccuracy, MASTERY_THRESHOLD,
      MIN_ATTEMPTS_FOR_MASTERY, masteredDueCard])

/-- C7 (counterexample): with an empty `allPatternIds` but a card
store holding a due card, `selectNextPattern` is NOT null — tier 2
returns the due card's pattern id, so "null iff `allPatternIds`
empty" fails in the empty-implies-null direction. -/
theorem C7_counterexample :
    selectNextPattern [("D", freshDueCard)] [] 0 0 0 0 0 0 = some "D" := by
  norm_num [selectNextPattern, cardKeys, cardValues, getDueCards, getUnmasteredCards,
    getMasteredCards, sortCards, pickRandom, List.insertionSort, freshDueCard]

/-- C7 (amended): `selectNextPattern` returns null only if
`allPatternIds` is empty — a non-empty universe always yields a
non-null id (the fallback guarantees it) — and with both the universe
and the card store empty it returns null; but an empty universe with
a non-empty card store may still return a non-null id through tiers
2–4. -/
theorem C7_null_iff (cards : CardStore) (allPatternIds : List String) (g m : ℤ)
    (rNew rInterval rMastered rFallback : ℕ) :
    (selectNextPattern cards allPatternIds g m rNew rInterval rMastered rFallback = none →
      allPatternIds = []) ∧
    (allPatternIds ≠ [] →
      selectNextPattern cards allPatternIds g m rNew rInterval rMastered rFallback ≠ none) ∧
    (allPatternIds = [] → cards = [] →
      selectNextPattern cards allPatternIds g m rNew rInterval rMastered rFallback = none) := by
  have key : allPatternIds ≠ [] →
      selectNextPattern cards allPatternIds g m rNew rInterval rMastered rFallback ≠ none := by
    intro hne
    simp only [selectNextPattern]
    split
    · simp
    · split
      · simp
      · split
        · simp
        · split
          · simp
          · exact pickRandom_ne_none hne rFallback
  refine ⟨fun hres => by_contra fun hne => key hne hres, key, ?_⟩
  rintro rfl rfl
  simp [selectNextPattern, cardKeys, cardValues, getDueCards, getUnmasteredCards,
    getMasteredCards, sortCards, pickRandom, List.insertionSort]

/-- C7 (witness): a non-empty universe gives a non-null result, and
the fully empty input gives null. -/
theorem C7_null_iff_witness :
    selectNextPattern [] ["A"] 0 0 0 0 0 0 ≠ none ∧
      selectNextPattern [] [] 0 0 0 0 0 0 = none :=
  ⟨(C7_null_iff [] ["A"] 0 0 0 0 0 0).2.1 (by simp),
   (C7_null_iff [] [] 0 0 0 0 0 0).2.2 rfl rfl⟩
